import Mathlib

/-!
# Verification of the simpply store-composition and dispatch engine

Shallow embedding of the registry builder (`createSystemStorage` in the
newer variant, `combineStorageEntities` in the `index.js` variant), the
dispatch resolver (`reducerFn`), and the store constructor (`createStore`)
from the simpply source, together with proofs of the specified properties.

JavaScript values are modelled by the inductive `JSValue`.  Function values
carry an identifier; their behaviour is supplied externally by a
`HandlerEnv` mapping identifiers to Lean functions `(slice, payload) ↦
newSlice`.  Plain objects are association lists of string keys, in
insertion order, mirroring JS object key order for string keys.  The
module-level `effectsToStorageEntityMap` (a JS `Map`) is threaded
explicitly as an association list with JS `Map.set`/`Map.get` semantics.
Thrown `Error`s are modelled by `Except SimpplyError`, one error
constructor per `throwError` site.
-/

set_option autoImplicit false

namespace Simpply

/-- A JavaScript runtime value, restricted to the kinds the simpply type
inspector distinguishes.  Function, date, regexp and symbol values carry
identifying data only; a function's behaviour is given by a `HandlerEnv`. -/
inductive JSValue where
  | obj (fields : List (String × JSValue))
  | arr (elems : List JSValue)
  | fn (id : Nat)
  | date (t : Int)
  | regexp (src : String)
  | sym (id : Nat)
  | num (n : Int)
  | str (s : String)
  | bool (b : Bool)
  | null
  | undefined
deriving Repr

/-- Semantics of JS function values: interpret a function identifier as a
handler `(entitySlice, payload) ↦ nextSlice`. -/
def HandlerEnv : Type := Nat → JSValue → JSValue → JSValue

/-- Embedding of `getVariableType`: the `Object.prototype.toString` tag,
lowercased. -/
def getVariableType : JSValue → String
  | .obj _ => "object"
  | .arr _ => "array"
  | .fn _ => "function"
  | .date _ => "date"
  | .regexp _ => "regexp"
  | .sym _ => "symbol"
  | .num _ => "number"
  | .str _ => "string"
  | .bool _ => "boolean"
  | .null => "null"
  | .undefined => "undefined"

/-- JS truthiness.  (`NaN` is not representable since numbers are modelled
by `Int`; every other falsy value is covered.) -/
def truthy : JSValue → Bool
  | .bool b => b
  | .num n => n != 0
  | .str s => s != ""
  | .null => false
  | .undefined => false
  | _ => true

/-- The JS strict comparison `x === undefined`. -/
def isUndefined : JSValue → Bool
  | .undefined => true
  | _ => false

/-- The string contents of a string value (used where JS coerces a value
already known to be of kind `string` into a property key). -/
def strVal : JSValue → String
  | .str s => s
  | _ => ""

/-- First field with the given key, or `undefined`: JS property read on a
plain object's field list. -/
def getField : List (String × JSValue) → String → JSValue
  | [], _ => .undefined
  | (k, v) :: rest, key => if k = key then v else getField rest key

/-- JS property read `value[key]`; non-objects yield `undefined` here
(sufficient for the uses in the source, which all follow a kind check). -/
def getProp : JSValue → String → JSValue
  | .obj fields, key => getField fields key
  | _, _ => .undefined

/-- JS property write / computed-key insertion on an object's field list:
an existing key keeps its position, a new key is appended. -/
def setField : List (String × JSValue) → String → JSValue → List (String × JSValue)
  | [], key, v => [(key, v)]
  | (k, w) :: rest, key, v =>
      if k = key then (k, v) :: rest else (k, w) :: setField rest key v

/-- JS object spread `{ ...base, ...extra }` on field lists: base keys keep
their order, colliding keys take the later value, fresh keys are appended
in order. -/
def spreadMerge (base extra : List (String × JSValue)) : List (String × JSValue) :=
  extra.foldl (fun acc kv => setField acc kv.1 kv.2) base

/-- The field list of an object value (`[]` for the other kinds; every use
in the source is guarded by an `'object'` kind check). -/
def objFields : JSValue → List (String × JSValue)
  | .obj fields => fields
  | _ => []

/-- The module-level `effectsToStorageEntityMap`: a JS `Map` from action
name to owning entity name, in insertion order. -/
def EffectsMap : Type := List (String × String)

/-- JS `Map.prototype.set`: replace the value of an existing key in place,
otherwise append. -/
def mapSet : EffectsMap → String → String → EffectsMap
  | [], k, v => [(k, v)]
  | (k', v') :: rest, k, v =>
      if k' = k then (k, v) :: rest else (k', v') :: mapSet rest k v

/-- JS `Map.prototype.get` (`none` models `undefined`). -/
def mapGet : EffectsMap → String → Option String
  | [], _ => none
  | (k', v') :: rest, k => if k' = k then some v' else mapGet rest k

/-- One constructor per `throwError` site in the source. -/
inductive SimpplyError where
  /-- `createSystemStorage` argument is not an object. -/
  | argNotObject
  /-- a storage entity is not an object. -/
  | entityNotObject (key : String)
  /-- missing `effects` or `initialState` props on an entity. -/
  | missingEntityFields (key : String)
  /-- an entity's `effects` prop is not an object. -/
  | effectsNotObject (key : String)
  /-- an entity's `initialState` is a function, date, regexp or symbol. -/
  | invalidInitialStateType (key : String)
  /-- `createStore`'s `systemStorage` argument is not an object. -/
  | storeArgNotObject
  /-- `createStore`'s `options` argument is not an object. -/
  | optionsNotObject
  /-- missing `globalEffects` or `globalInitialState` props. -/
  | missingStorageFields
  /-- the dispatched action is not an object. -/
  | actionNotObject
  /-- missing `type` or `payload` props on the action. -/
  | missingActionFields
  /-- the action's `type` is not a string. -/
  | typeNotString
  /-- the action's `payload` is a function, date, regexp or symbol. -/
  | invalidPayloadType
deriving Repr, DecidableEq

/-- The registry returned by a successful registry build. -/
structure SystemStorage where
  globalEffects : List (String × JSValue)
  globalInitialState : List (String × JSValue)
deriving Repr

/-- The entity loop of `createSystemStorage` (the `part_000` variant):
processes the entries of the entity map in order, accumulating
`globalEffects`, `globalInitialState` and the module-level
`effectsToStorageEntityMap`.  A `throwError` aborts the loop, returning
the map as mutated so far (the JS map is module-level and is not rolled
back). -/
def buildLoopCSS : List (String × JSValue) → List (String × JSValue) →
    List (String × JSValue) → EffectsMap → Except SimpplyError SystemStorage × EffectsMap
  | [], ge, gis, em => (.ok ⟨ge, gis⟩, em)
  | (key, ent) :: rest, ge, gis, em =>
      if getVariableType ent != "object" then
        (.error (.entityNotObject key), em)
      else
        let effects := getProp ent "effects"
        let initialState := getProp ent "initialState"
        if !truthy effects || isUndefined initialState then
          (.error (.missingEntityFields key), em)
        else if getVariableType effects != "object" then
          (.error (.effectsNotObject key), em)
        else if getVariableType initialState == "function" ||
            getVariableType initialState == "date" ||
            getVariableType initialState == "regexp" ||
            getVariableType initialState == "symbol" then
          (.error (.invalidInitialStateType key), em)
        else
          buildLoopCSS rest (spreadMerge ge (objFields effects))
            (setField gis key initialState)
            ((objFields effects).foldl (fun m kv => mapSet m kv.1 key) em)

/-- Embedding of `createSystemStorage` (`part_000`): validates the entity
map and merges every entity into the registry, recording action-name
ownership in the module-level map. -/
def createSystemStorage (storageEntitiesObj : JSValue) (em : EffectsMap) :
    Except SimpplyError SystemStorage × EffectsMap :=
  if getVariableType storageEntitiesObj != "object" then
    (.error .argNotObject, em)
  else
    buildLoopCSS (objFields storageEntitiesObj) [] [] em

/-- The entity loop of `combineStorageEntities` (the `index.js` variant).
Identical to `buildLoopCSS` except that the presence check on
`initialState` is the truthiness test `!initialState` rather than
`initialState === undefined`. -/
def buildLoopCombine : List (String × JSValue) → List (String × JSValue) →
    List (String × JSValue) → EffectsMap → Except SimpplyError SystemStorage × EffectsMap
  | [], ge, gis, em => (.ok ⟨ge, gis⟩, em)
  | (key, ent) :: rest, ge, gis, em =>
      if getVariableType ent != "object" then
        (.error (.entityNotObject key), em)
      else
        let effects := getProp ent "effects"
        let initialState := getProp ent "initialState"
        if !truthy effects || !truthy initialState then
          (.error (.missingEntityFields key), em)
        else if getVariableType effects != "object" then
          (.error (.effectsNotObject key), em)
        else if getVariableType initialState == "function" ||
            getVariableType initialState == "date" ||
            getVariableType initialState == "regexp" ||
            getVariableType initialState == "symbol" then
          (.error (.invalidInitialStateType key), em)
        else
          buildLoopCombine rest (spreadMerge ge (objFields effects))
            (setField gis key initialState)
            ((objFields effects).foldl (fun m kv => mapSet m kv.1 key) em)

/-- Embedding of `combineStorageEntities` (`src/index.js`). -/
def combineStorageEntities (storageEntitiesObj : JSValue) (em : EffectsMap) :
    Except SimpplyError SystemStorage × EffectsMap :=
  if getVariableType storageEntitiesObj != "object" then
    (.error .argNotObject, em)
  else
    buildLoopCombine (objFields storageEntitiesObj) [] [] em

/-- Application of a JS function value via the handler environment. -/
def applyFn (env : HandlerEnv) : JSValue → JSValue → JSValue → JSValue
  | .fn id, s, p => env id s p
  | _, _, _ => .undefined

/-- Embedding of the reducer closure `reducerFn`: validates the action,
then resolves `systemStorage.globalEffects[type]` and the owning entity
`effectsToStorageEntityMap.get(type)` and replaces only that entity's
slice; a type with no callable handler is a silent no-op.  When the map
has no entry, the JS computed key `[undefined]` coerces to the string
key `"undefined"`, which `Option.getD` reproduces. -/
def reducerFn (env : HandlerEnv) (systemStorage : JSValue) (em : EffectsMap)
    (state : List (String × JSValue)) (action : JSValue) :
    Except SimpplyError (List (String × JSValue)) :=
  if getVariableType action != "object" then
    .error .actionNotObject
  else
    let type := getProp action "type"
    let payload := getProp action "payload"
    if !truthy type || !truthy payload then
      .error .missingActionFields
    else if getVariableType type != "string" then
      .error .typeNotString
    else if getVariableType payload == "function" ||
        getVariableType payload == "date" ||
        getVariableType payload == "regexp" ||
        getVariableType payload == "symbol" then
      .error .invalidPayloadType
    else
      let fn := getProp (getProp systemStorage "globalEffects") (strVal type)
      let key := (mapGet em (strVal type)).getD "undefined"
      if truthy fn && getVariableType fn == "function" then
        .ok (setField state key (applyFn env fn (getField state key) payload))
      else
        .ok state

/-- A store as returned by `createStore`: the state handed to `useReducer`
and the `systemStorage` the store's reducer closure captured (the
module-level cached `reducerFn` closes over the storage of the *first*
`createStore` call). -/
structure Store where
  state : JSValue
  capturedStorage : JSValue
deriving Repr

/-- Embedding of `createStore` (`part_000` variant).  `cached` is the
module-level `reducerFn` variable, represented by the `systemStorage`
value the cached closure captured (`none` when `reducerFn` is still
`null`).  Returns the store and the new module-level cache. -/
def createStore (cached : Option JSValue) (systemStorage options : JSValue) :
    Except SimpplyError Store × Option JSValue :=
  if getVariableType systemStorage != "object" then
    (.error .storeArgNotObject, cached)
  else if getVariableType options != "object" then
    (.error .optionsNotObject, cached)
  else if !truthy (getProp systemStorage "globalEffects") ||
      !truthy (getProp systemStorage "globalInitialState") then
    (.error .missingStorageFields, cached)
  else
    let captured := cached.getD systemStorage
    (.ok ⟨getProp systemStorage "globalInitialState", captured⟩, some captured)

/-- Dispatch through a store: `useReducer` runs the (cached) reducer
closure on the current state and the action. -/
def storeDispatch (env : HandlerEnv) (store : Store) (em : EffectsMap)
    (state : List (String × JSValue)) (action : JSValue) :
    Except SimpplyError (List (String × JSValue)) :=
  reducerFn env store.capturedStorage em state action

/-- The action-validation prefix of `reducerFn`, isolated: the error the
reducer raises before it ever consults the registry, if any. -/
def validateAction (action : JSValue) : Option SimpplyError :=
  if getVariableType action != "object" then
    some .actionNotObject
  else
    let type := getProp action "type"
    let payload := getProp action "payload"
    if !truthy type || !truthy payload then
      some .missingActionFields
    else if getVariableType type != "string" then
      some .typeNotString
    else if getVariableType payload == "function" ||
        getVariableType payload == "date" ||
        getVariableType payload == "regexp" ||
        getVariableType payload == "symbol" then
      some .invalidPayloadType
    else
      none

/-- An entity value that passes every per-entity check of
`createSystemStorage`. -/
def validEntity (ent : JSValue) : Bool :=
  getVariableType ent == "object" &&
  truthy (getProp ent "effects") &&
  !isUndefined (getProp ent "initialState") &&
  getVariableType (getProp ent "effects") == "object" &&
  !(getVariableType (getProp ent "initialState") == "function" ||
    getVariableType (getProp ent "initialState") == "date" ||
    getVariableType (getProp ent "initialState") == "regexp" ||
    getVariableType (getProp ent "initialState") == "symbol")

/-- The registry record as the JS value `{globalEffects, globalInitialState}`
returned by the builder (the shape `createStore` and `reducerFn` consume). -/
def storageToJS (ss : SystemStorage) : JSValue :=
  .obj [("globalEffects", .obj ss.globalEffects),
        ("globalInitialState", .obj ss.globalInitialState)]

/-! ## Concrete values used by witnesses and counterexamples -/

/-- A concrete handler environment: handler `0` adds a numeric payload to a
numeric slice; handler `1` replaces the slice by the payload. -/
def addEnv : HandlerEnv := fun id s p =>
  match id, s, p with
  | 0, .num a, .num b => .num (a + b)
  | 1, _, q => q
  | _, _, _ => .undefined

/-- A concrete registry value of the `{globalEffects, globalInitialState}`
shape: one `INCREMENT` handler owned by `counter`. -/
def demoStorage : JSValue :=
  .obj [("globalEffects", .obj [("INCREMENT", .fn 0)]),
        ("globalInitialState", .obj [("counter", .num 0), ("other", .str "x")])]

/-- A concrete global state with two entity slices. -/
def demoState : List (String × JSValue) :=
  [("counter", .num 0), ("other", .str "x")]

/-- The ownership map matching `demoStorage`. -/
def demoMap : EffectsMap := [("INCREMENT", "counter")]

/-- A concrete valid entity: `{effects: {INC: fn 0}, initialState: 0}`.
Its `initialState` is present but falsy. -/
def demoEntity : JSValue :=
  .obj [("effects", .obj [("INC", .fn 0)]), ("initialState", .num 0)]

/-! ## Helper lemmas on the object and map operations -/

theorem getField_setField_self (l : List (String × JSValue)) (k : String) (v : JSValue) :
    getField (setField l k v) k = v := by
  induction l with
  | nil => simp [setField, getField]
  | cons kv rest ih =>
      obtain ⟨k₁, w⟩ := kv
      by_cases h : k₁ = k
      · simp [setField, h, getField]
      · simp [setField, h, getField, ih]

theorem getField_setField_ne (l : List (String × JSValue)) (k k' : String) (v : JSValue)
    (h : k' ≠ k) : getField (setField l k v) k' = getField l k' := by
  induction l with
  | nil => simp [setField, getField, Ne.symm h]
  | cons kv rest ih =>
      obtain ⟨k₁, w⟩ := kv
      by_cases h₁ : k₁ = k
      · subst h₁
        simp [setField, getField, Ne.symm h]
      · simp only [setField, if_neg h₁, getField]
        by_cases h₂ : k₁ = k'
        · simp [h₂]
        · simp [h₂, ih]

theorem mem_keys_setField (l : List (String × JSValue)) (k k' : String) (v : JSValue) :
    k' ∈ (setField l k v).map Prod.fst ↔ k' = k ∨ k' ∈ l.map Prod.fst := by
  induction l with
  | nil => simp [setField]
  | cons kv rest ih =>
      obtain ⟨k₁, w⟩ := kv
      by_cases h : k₁ = k
      · subst h
        have hs : setField ((k₁, w) :: rest) k₁ v = (k₁, v) :: rest := by
          simp [setField]
        rw [hs]
        simp only [List.map_cons, List.mem_cons]
        tauto
      · have hs : setField ((k₁, w) :: rest) k v = (k₁, w) :: setField rest k v := by
          simp [setField, h]
        rw [hs]
        simp only [List.map_cons, List.mem_cons, ih]
        tauto

theorem mapGet_mapSet_self (m : EffectsMap) (k v : String) :
    mapGet (mapSet m k v) k = some v := by
  induction m with
  | nil => simp [mapSet, mapGet]
  | cons kv rest ih =>
      obtain ⟨k₁, w⟩ := kv
      by_cases h : k₁ = k
      · simp [mapSet, h, mapGet]
      · simp [mapSet, h, mapGet, ih]

theorem mapGet_mapSet_ne (m : EffectsMap) (k k' v : String) (h : k' ≠ k) :
    mapGet (mapSet m k v) k' = mapGet m k' := by
  induction m with
  | nil => simp [mapSet, mapGet, Ne.symm h]
  | cons kv rest ih =>
      obtain ⟨k₁, w⟩ := kv
      by_cases h₁ : k₁ = k
      · subst h₁
        simp [mapSet, mapGet, Ne.symm h]
      · simp only [mapSet, if_neg h₁, mapGet]
        by_cases h₂ : k₁ = k'
        · simp [h₂]
        · simp [h₂, ih]

/-- After folding `mapSet · · owner` over a list of keys, every key of the
list maps to `owner`; a key already mapping to `owner` keeps doing so. -/
theorem mapGet_foldl_mapSet (ks : List (String × JSValue)) (owner : String) :
    ∀ (m : EffectsMap) (a : String),
      (a ∈ ks.map Prod.fst ∨ mapGet m a = some owner) →
      mapGet (ks.foldl (fun acc kv => mapSet acc kv.1 owner) m) a = some owner := by
  induction ks with
  | nil =>
      intro m a h
      simpa using h.resolve_left (by simp)
  | cons kv rest ih =>
      intro m a h
      obtain ⟨k₁, w⟩ := kv
      simp only [List.foldl_cons]
      apply ih
      by_cases hk : a = k₁
      · subst hk
        right
        exact mapGet_mapSet_self m a owner
      · rcases h with h | h
        · simp at h
          rcases h with h | h
          · exact absurd h hk
          · left
            simpa using h
        · right
          rw [mapGet_mapSet_ne m k₁ a owner hk]
          exact h

theorem spreadMerge_nil (base : List (String × JSValue)) :
    spreadMerge base [] = base := rfl

theorem spreadMerge_cons (base : List (String × JSValue)) (k : String) (v : JSValue)
    (rest : List (String × JSValue)) :
    spreadMerge base ((k, v) :: rest) = spreadMerge (setField base k v) rest := rfl

/-- Folding `setField` over `extra` leaves keys outside `extra` unchanged. -/
theorem getField_spreadMerge_notMem (extra : List (String × JSValue)) :
    ∀ (base : List (String × JSValue)) (a : String),
      a ∉ extra.map Prod.fst →
      getField (spreadMerge base extra) a = getField base a := by
  induction extra with
  | nil => intro base a _; rfl
  | cons kv rest ih =>
      intro base a h
      obtain ⟨k₁, w⟩ := kv
      simp only [List.map_cons, List.mem_cons] at h
      push_neg at h
      rw [spreadMerge_cons, ih (setField base k₁ w) a h.2]
      exact getField_setField_ne base k₁ a w h.1

/-- With duplicate-free keys in `extra`, a key of `extra` reads back its
`extra` value after the spread, whatever `base` held. -/
theorem getField_spreadMerge_mem (extra : List (String × JSValue))
    (hnd : (extra.map Prod.fst).Nodup) :
    ∀ (base : List (String × JSValue)) (a : String) (v : JSValue),
      getField extra a = v → a ∈ extra.map Prod.fst →
      getField (spreadMerge base extra) a = v := by
  induction extra with
  | nil => intro base a v _ hmem; simp at hmem
  | cons kv rest ih =>
      intro base a v hget hmem
      obtain ⟨k₁, w⟩ := kv
      simp only [List.map_cons, List.nodup_cons] at hnd
      rw [spreadMerge_cons]
      by_cases hk : a = k₁
      · subst hk
        have hvw : v = w := by
          simpa [getField] using hget.symm
        subst hvw
        rw [getField_spreadMerge_notMem rest (setField base a v) a hnd.1]
        exact getField_setField_self base a v
      · have hget' : getField rest a = v := by
          simpa [getField, Ne.symm hk] using hget
        have hmem' : a ∈ rest.map Prod.fst := by
          simpa [hk] using hmem
        exact ih hnd.2 (setField base k₁ w) a v hget' hmem'

theorem isUndefined_eq_false_of_ne (v : JSValue) (h : v ≠ .undefined) :
    isUndefined v = false := by
  cases v <;> simp_all [isUndefined]

theorem mem_keys_of_getField_fn (l : List (String × JSValue)) (k : String) (i : Nat)
    (h : getField l k = .fn i) : k ∈ l.map Prod.fst := by
  induction l with
  | nil => simp [getField] at h
  | cons kv rest ih =>
      obtain ⟨k₁, w⟩ := kv
      by_cases hk : k₁ = k
      · simp [hk]
      · simp only [getField, if_neg hk] at h
        simp [ih h]

/-- One iteration of the `createSystemStorage` entity loop on a
well-shaped entity `{effects: {...}, initialState: s}` with an allowed
`initialState`: merges the effects, records the initial state and the
ownership entries, and continues. -/
theorem buildLoopCSS_step (key : String) (ef : List (String × JSValue)) (s : JSValue)
    (rest ge gis : List (String × JSValue)) (m : EffectsMap)
    (hiu : isUndefined s = false)
    (h1 : getVariableType s ≠ "function")
    (h2 : getVariableType s ≠ "date")
    (h3 : getVariableType s ≠ "regexp")
    (h4 : getVariableType s ≠ "symbol") :
    buildLoopCSS ((key, .obj [("effects", .obj ef), ("initialState", s)]) :: rest) ge gis m =
      buildLoopCSS rest (spreadMerge ge ef) (setField gis key s)
        (ef.foldl (fun mm kv => mapSet mm kv.1 key) m) := by
  have e1 : getProp (JSValue.obj [("effects", JSValue.obj ef), ("initialState", s)])
      "effects" = JSValue.obj ef := rfl
  have e2 : getProp (JSValue.obj [("effects", JSValue.obj ef), ("initialState", s)])
      "initialState" = s := rfl
  have k0 : getVariableType (JSValue.obj [("effects", JSValue.obj ef), ("initialState", s)]) =
      "object" := rfl
  have k1 : getVariableType (JSValue.obj ef) = "object" := rfl
  have t1 : truthy (JSValue.obj ef) = true := rfl
  simp [buildLoopCSS, e1, e2, k0, k1, t1, hiu, h1, h2, h3, h4, objFields]

/-! ## Resolver lemmas shared by several results -/

/-- If the action passes every validation, its `type` is registered with a
callable handler, and the ownership map names entity `e`, then the reducer
replaces exactly slice `e` by the handler's result. -/
theorem reducerFn_resolved (env : HandlerEnv) (ssJS : JSValue) (em : EffectsMap)
    (state af : List (String × JSValue)) (t e : String) (i : Nat) (p : JSValue)
    (htype : getField af "type" = .str t)
    (ht : t ≠ "")
    (hp : getField af "payload" = p)
    (hpt : truthy p = true)
    (hpk : getVariableType p ∉ (["function", "date", "regexp", "symbol"] : List String))
    (hfn : getProp (getProp ssJS "globalEffects") t = .fn i)
    (hown : mapGet em t = some e) :
    reducerFn env ssJS em state (.obj af) =
      .ok (setField state e (env i (getField state e) p)) := by
  simp only [List.mem_cons, List.not_mem_nil, or_false, not_or] at hpk
  obtain ⟨hk1, hk2, hk3, hk4⟩ := hpk
  have hgt : getProp (JSValue.obj af) "type" = JSValue.str t := htype
  have hgp : getProp (JSValue.obj af) "payload" = p := hp
  have htt : truthy (JSValue.str t) = true := by simp [truthy, ht]
  have hsv : strVal (JSValue.str t) = t := rfl
  have hft : truthy (JSValue.fn i) = true := rfl
  have hA : getVariableType (JSValue.obj af) = "object" := rfl
  have hT : getVariableType (JSValue.str t) = "string" := rfl
  have hF : getVariableType (JSValue.fn i) = "function" := rfl
  simp [reducerFn, hgt, hgp, htt, hpt, hsv, hfn, hown, hft, hA, hT, hF,
    hk1, hk2, hk3, hk4, applyFn]

/-- If the action passes every validation but its `type` has no registered
handler, or the registered value is not callable, the reducer is the
identity on the state. -/
theorem reducerFn_unresolved (env : HandlerEnv) (ssJS : JSValue) (em : EffectsMap)
    (state af : List (String × JSValue)) (t : String) (p : JSValue)
    (htype : getField af "type" = .str t)
    (ht : t ≠ "")
    (hp : getField af "payload" = p)
    (hpt : truthy p = true)
    (hpk : getVariableType p ∉ (["function", "date", "regexp", "symbol"] : List String))
    (hfn : truthy (getProp (getProp ssJS "globalEffects") t) = false ∨
      getVariableType (getProp (getProp ssJS "globalEffects") t) ≠ "function") :
    reducerFn env ssJS em state (.obj af) = .ok state := by
  simp only [List.mem_cons, List.not_mem_nil, or_false, not_or] at hpk
  obtain ⟨hk1, hk2, hk3, hk4⟩ := hpk
  have hgt : getProp (JSValue.obj af) "type" = JSValue.str t := htype
  have hgp : getProp (JSValue.obj af) "payload" = p := hp
  have htt : truthy (JSValue.str t) = true := by simp [truthy, ht]
  have hsv : strVal (JSValue.str t) = t := rfl
  have hA : getVariableType (JSValue.obj af) = "object" := rfl
  have hT : getVariableType (JSValue.str t) = "string" := rfl
  rcases hfn with hfn | hfn <;>
    simp [reducerFn, hgt, hgp, htt, hpt, hsv, hA, hT,
      hk1, hk2, hk3, hk4, hfn]

/-! ## Claim theorems -/

/-- C1: for every global state and every action whose `type` is registered
in the registry's global effects with owning entity `e` per the ownership
index and whose payload passes validation, the resolver returns a state
that differs from the input only at key `e`; the value at `e` is
`handler(state[e], payload)` and every sibling entry is carried over
unchanged. -/
theorem resolver_updates_only_owned_slice (env : HandlerEnv) (ssJS : JSValue)
    (em : EffectsMap) (state af : List (String × JSValue)) (t e : String) (i : Nat)
    (p : JSValue)
    (htype : getField af "type" = .str t)
    (ht : t ≠ "")
    (hp : getField af "payload" = p)
    (hpt : truthy p = true)
    (hpk : getVariableType p ∉ (["function", "date", "regexp", "symbol"] : List String))
    (hfn : getProp (getProp ssJS "globalEffects") t = .fn i)
    (hown : mapGet em t = some e) :
    reducerFn env ssJS em state (.obj af) =
      .ok (setField state e (env i (getField state e) p)) ∧
    getField (setField state e (env i (getField state e) p)) e =
      env i (getField state e) p ∧
    ∀ k, k ≠ e → getField (setField state e (env i (getField state e) p)) k =
      getField state k := by
  refine ⟨reducerFn_resolved env ssJS em state af t e i p htype ht hp hpt hpk hfn hown,
    getField_setField_self state e _, ?_⟩
  intro k hk
  exact getField_setField_ne state e k _ hk

/-- Witness for C1 on the scenario of §8: an `INCREMENT` handler owned by
`counter` updates the `counter` slice and leaves the `other` slice alone. -/
theorem resolver_updates_only_owned_slice_witness :
    reducerFn addEnv demoStorage demoMap demoState
      (.obj [("type", .str "INCREMENT"), ("payload", .num 1)]) =
      .ok (setField demoState "counter"
        (addEnv 0 (getField demoState "counter") (.num 1))) ∧
    getField (setField demoState "counter"
        (addEnv 0 (getField demoState "counter") (.num 1))) "counter" =
      addEnv 0 (getField demoState "counter") (.num 1) ∧
    ∀ k, k ≠ "counter" →
      getField (setField demoState "counter"
        (addEnv 0 (getField demoState "counter") (.num 1))) k =
      getField demoState k :=
  resolver_updates_only_owned_slice addEnv demoStorage demoMap demoState
    [("type", .str "INCREMENT"), ("payload", .num 1)] "INCREMENT" "counter" 0 (.num 1)
    rfl (by decide) rfl (by decide) (by decide) rfl rfl

/-- C2: a well-formed action whose `type` has no registered handler, or
whose registered handler is not callable, is a silent no-op: the resolver
returns the input state itself, never an error. -/
theorem unregistered_action_is_noop (env : HandlerEnv) (ssJS : JSValue)
    (em : EffectsMap) (state af : List (String × JSValue)) (t : String) (p : JSValue)
    (htype : getField af "type" = .str t)
    (ht : t ≠ "")
    (hp : getField af "payload" = p)
    (hpt : truthy p = true)
    (hpk : getVariableType p ∉ (["function", "date", "regexp", "symbol"] : List String))
    (hfn : truthy (getProp (getProp ssJS "globalEffects") t) = false ∨
      getVariableType (getProp (getProp ssJS "globalEffects") t) ≠ "function") :
    reducerFn env ssJS em state (.obj af) = .ok state :=
  reducerFn_unresolved env ssJS em state af t p htype ht hp hpt hpk hfn

/-- Witness for C2 on the scenario of §8: dispatching `UNKNOWN` against a
registry that only knows `INCREMENT` leaves the state untouched. -/
theorem unregistered_action_is_noop_witness :
    reducerFn addEnv demoStorage demoMap demoState
      (.obj [("type", .str "UNKNOWN"), ("payload", .num 1)]) = .ok demoState :=
  unregistered_action_is_noop addEnv demoStorage demoMap demoState
    [("type", .str "UNKNOWN"), ("payload", .num 1)] "UNKNOWN" (.num 1)
    rfl (by decide) rfl (by decide) (by decide) (Or.inl (by decide))

/-- C4: an action object whose `type` or `payload` is absent or falsy is
rejected with the missing-field error; the presence test is
truthiness-based, so payloads such as `0`, `''` or `false` are rejected
too. -/
theorem falsy_type_or_payload_rejected (env : HandlerEnv) (ssJS : JSValue)
    (em : EffectsMap) (state af : List (String × JSValue))
    (h : truthy (getField af "type") = false ∨ truthy (getField af "payload") = false) :
    reducerFn env ssJS em state (.obj af) = .error .missingActionFields := by
  rcases h with h | h <;> simp [reducerFn, getVariableType, getProp, h]

/-- Witness for C4 on the scenario of §8: `dispatch({type: "INCREMENT"})`
with the payload absent fails with the missing-field error. -/
theorem falsy_type_or_payload_rejected_witness :
    reducerFn addEnv demoStorage demoMap demoState
      (.obj [("type", .str "INCREMENT")]) = .error .missingActionFields :=
  falsy_type_or_payload_rejected addEnv demoStorage demoMap demoState
    [("type", .str "INCREMENT")] (Or.inr (by decide))

/-- C7: the resolver is deterministic and stateless: dispatch through any
two stores holding the same captured registry agrees, and the result is
exactly the pure function `reducerFn` of the captured registry, the
ownership map, the state and the action — nothing else. -/
theorem resolver_deterministic_stateless (env : HandlerEnv) (st1 st2 : Store)
    (em : EffectsMap) (state : List (String × JSValue)) (action : JSValue)
    (h : st1.capturedStorage = st2.capturedStorage) :
    storeDispatch env st1 em state action = storeDispatch env st2 em state action ∧
    storeDispatch env st1 em state action =
      reducerFn env st1.capturedStorage em state action :=
  ⟨by simp [storeDispatch, h], rfl⟩

/-- Witness for C7: two distinct store values sharing a captured registry
dispatch identically. -/
theorem resolver_deterministic_stateless_witness :
    storeDispatch addEnv ⟨.num 1, demoStorage⟩ demoMap demoState
        (.obj [("type", .str "INCREMENT"), ("payload", .num 1)]) =
      storeDispatch addEnv ⟨.num 2, demoStorage⟩ demoMap demoState
        (.obj [("type", .str "INCREMENT"), ("payload", .num 1)]) ∧
    storeDispatch addEnv ⟨.num 1, demoStorage⟩ demoMap demoState
        (.obj [("type", .str "INCREMENT"), ("payload", .num 1)]) =
      reducerFn addEnv demoStorage demoMap demoState
        (.obj [("type", .str "INCREMENT"), ("payload", .num 1)]) :=
  resolver_deterministic_stateless addEnv ⟨.num 1, demoStorage⟩ ⟨.num 2, demoStorage⟩
    demoMap demoState (.obj [("type", .str "INCREMENT"), ("payload", .num 1)]) rfl

/-- C10: action validation precedes handler resolution: whenever the
validation prefix rejects the action with error `e`, the reducer raises
exactly `e` against every registry and ownership map — including ones
where the action's `type` is unregistered. -/
theorem validation_precedes_resolution (action : JSValue) (e : SimpplyError)
    (h : validateAction action = some e) :
    ∀ (env : HandlerEnv) (ssJS : JSValue) (em : EffectsMap)
      (state : List (String × JSValue)),
      reducerFn env ssJS em state action = .error e := by
  intro env ssJS em state
  simp only [validateAction] at h
  split_ifs at h with h1 h2 h3 h4
  · injection h with he
    subst he
    simp [reducerFn, h1]
  · injection h with he
    subst he
    simp [reducerFn, h1, h2]
  · injection h with he
    subst he
    simp [reducerFn, h1, h2, h3]
  · injection h with he
    subst he
    simp [reducerFn, h1, h2, h3, h4]

/-- Witness for C10: an action whose payload is a date fails payload
validation, and the reducer rejects it even though its `type` is
unregistered in the empty registry. -/
theorem validation_precedes_resolution_witness :
    validateAction (.obj [("type", .str "NOPE"), ("payload", .date 0)]) =
      some .invalidPayloadType ∧
    reducerFn addEnv (.obj []) [] []
      (.obj [("type", .str "NOPE"), ("payload", .date 0)]) =
      .error .invalidPayloadType :=
  ⟨by decide,
   validation_precedes_resolution (.obj [("type", .str "NOPE"), ("payload", .date 0)])
     .invalidPayloadType (by decide) addEnv (.obj []) [] []⟩

/-- C3 counterexample: the registry builder variant `combineStorageEntities`
(`src/index.js` lines 83–87) does NOT accept a present-but-falsy
`initialState`: for the entity `{effects: {INC: fn}, initialState: 0}` —
whose `effects` is a plain mapping and whose `initialState` is present but
falsy — it fails with the missing-field error, refuting the claim as
stated for that builder. -/
theorem combine_rejects_falsy_initialState :
    getVariableType (getProp demoEntity "effects") = "object" ∧
    truthy (getProp demoEntity "initialState") = false ∧
    getProp demoEntity "initialState" ≠ .undefined ∧
    (combineStorageEntities (.obj [("counter", demoEntity)]) []).1 =
      .error (.missingEntityFields "counter") := by
  refine ⟨rfl, rfl, ?_, rfl⟩
  simp [demoEntity, getProp, getField]

/-- C3 amended: the `createSystemStorage` builder (the `part_000` variant)
accepts an entity whose `effects` is a plain mapping and whose
`initialState` is present but falsy, and among such entities only an
`initialState` that is specifically `undefined` triggers the
missing-field error.  (The `combineStorageEntities` variant in
`src/index.js` instead rejects present-but-falsy `initialState`, per the
counterexample.) -/
theorem falsy_initialState_accepted (key : String) (ent : JSValue) (em : EffectsMap)
    (hent : getVariableType ent = "object")
    (heff : getVariableType (getProp ent "effects") = "object")
    (hfals : truthy (getProp ent "initialState") = false)
    (hdef : getProp ent "initialState" ≠ .undefined) :
    (∃ ss em', createSystemStorage (.obj [(key, ent)]) em = (.ok ss, em')) ∧
    (∀ ent', getVariableType ent' = "object" →
      getProp ent' "initialState" = .undefined →
      (createSystemStorage (.obj [(key, ent')]) em).1 =
        .error (.missingEntityFields key)) := by
  constructor
  · have htr : truthy (getProp ent "effects") = true := by
      cases he : getProp ent "effects" <;> simp_all [getVariableType, truthy]
    have hiu : isUndefined (getProp ent "initialState") = false := by
      cases hi : getProp ent "initialState" <;> simp_all [isUndefined]
    obtain ⟨hk1, hk2, hk3, hk4⟩ :
        getVariableType (getProp ent "initialState") ≠ "function" ∧
        getVariableType (getProp ent "initialState") ≠ "date" ∧
        getVariableType (getProp ent "initialState") ≠ "regexp" ∧
        getVariableType (getProp ent "initialState") ≠ "symbol" := by
      cases hi : getProp ent "initialState" <;>
        simp_all [truthy, getVariableType]
    have hg0 : getVariableType (JSValue.obj [(key, ent)]) = "object" := rfl
    refine ⟨⟨spreadMerge [] (objFields (getProp ent "effects")),
        setField [] key (getProp ent "initialState")⟩,
      (objFields (getProp ent "effects")).foldl (fun m kv => mapSet m kv.1 key) em, ?_⟩
    simp [createSystemStorage, buildLoopCSS, hg0, hent, heff, htr, hiu,
      hk1, hk2, hk3, hk4]
  · intro ent' h1 h2
    have hiu : isUndefined (getProp ent' "initialState") = true := by
      rw [h2]; rfl
    have hg0 : getVariableType (JSValue.obj [(key, ent')]) = "object" := rfl
    simp [createSystemStorage, buildLoopCSS, hg0, h1, hiu]

/-- Witness for the amended C3: `createSystemStorage` accepts the entity
`{effects: {INC: fn}, initialState: 0}` whose `initialState` is falsy. -/
theorem falsy_initialState_accepted_witness :
    (∃ ss em', createSystemStorage (.obj [("counter", demoEntity)]) [] = (.ok ss, em')) ∧
    (∀ ent', getVariableType ent' = "object" →
      getProp ent' "initialState" = .undefined →
      (createSystemStorage (.obj [("counter", ent')]) []).1 =
        .error (.missingEntityFields "counter")) :=
  falsy_initialState_accepted "counter" demoEntity [] rfl rfl rfl
    (by simp [demoEntity, getProp, getField])

/-- C6 counterexample: registry construction is NOT atomic for the
module-level ownership map.  Building `{a: validEntity, b: 0}` fails on
the malformed second entity, yet the first entity's action name `INC` has
already been recorded in the shared `effectsToStorageEntityMap`, which is
not rolled back: something was partially registered despite the error. -/
theorem failed_build_leaves_partial_ownership :
    (createSystemStorage (.obj [("a", demoEntity), ("b", .num 0)]) []).1 =
      .error (.entityNotObject "b") ∧
    (createSystemStorage (.obj [("a", demoEntity), ("b", .num 0)]) []).2 =
      [("INC", "a")] ∧
    mapGet (createSystemStorage (.obj [("a", demoEntity), ("b", .num 0)]) []).2 "INC" =
      some "a" :=
  ⟨rfl, rfl, rfl⟩

/-- C6 amended: a malformed entity declaration makes the builder raise
synchronously; no registry value is returned and the failing entity (and
everything after it) registers nothing — the ownership map is returned
exactly as it stood when the error was raised.  (Entities merged *before*
the failure keep their ownership entries in the module-level map, per the
counterexample, so construction is not fully atomic.)  A non-object
entity map likewise registers nothing. -/
theorem malformed_entity_registers_nothing (key : String) (ent : JSValue)
    (rest : List (String × JSValue)) (em : EffectsMap)
    (h : getVariableType ent ≠ "object" ∨
      (truthy (getProp ent "effects") = false ∨ getProp ent "initialState" = .undefined) ∨
      getVariableType (getProp ent "effects") ≠ "object" ∨
      getVariableType (getProp ent "initialState") = "function" ∨
      getVariableType (getProp ent "initialState") = "date" ∨
      getVariableType (getProp ent "initialState") = "regexp" ∨
      getVariableType (getProp ent "initialState") = "symbol") :
    (∀ v, getVariableType v ≠ "object" →
      createSystemStorage v em = (.error .argNotObject, em)) ∧
    ∃ e, createSystemStorage (.obj ((key, ent) :: rest)) em = (.error e, em) := by
  constructor
  · intro v hv
    simp [createSystemStorage, hv]
  · have hg0 : getVariableType (JSValue.obj ((key, ent) :: rest)) = "object" := rfl
    have hloop : ∃ e, buildLoopCSS ((key, ent) :: rest) [] [] em = (.error e, em) := by
      by_cases h1 : getVariableType ent = "object"
      · by_cases h2 : (!truthy (getProp ent "effects") ||
            isUndefined (getProp ent "initialState")) = true
        · exact ⟨.missingEntityFields key, by simp [buildLoopCSS, h1, h2]⟩
        · by_cases h3 : getVariableType (getProp ent "effects") = "object"
          · have h4 : (getVariableType (getProp ent "initialState") == "function" ||
                getVariableType (getProp ent "initialState") == "date" ||
                getVariableType (getProp ent "initialState") == "regexp" ||
                getVariableType (getProp ent "initialState") == "symbol") = true := by
              rcases h with h | h | h | h | h | h | h
              · exact absurd h1 h
              · rcases h with h | h
                · simp [h] at h2
                · rw [h] at h2
                  simp [isUndefined] at h2
              · exact absurd h3 h
              all_goals simp [h]
            exact ⟨.invalidInitialStateType key, by simp [buildLoopCSS, h1, h2, h3, h4]⟩
          · exact ⟨.effectsNotObject key, by simp [buildLoopCSS, h1, h2, h3]⟩
      · exact ⟨.entityNotObject key, by simp [buildLoopCSS, h1]⟩
    obtain ⟨e, he⟩ := hloop
    exact ⟨e, by simp [createSystemStorage, hg0, objFields, he]⟩

/-- Witness for the amended C6: an entity map whose sole entity is the
non-object `0` fails and leaves the pre-existing ownership map exactly as
it was. -/
theorem malformed_entity_registers_nothing_witness :
    (∀ v, getVariableType v ≠ "object" →
      createSystemStorage v [("X", "y")] = (.error .argNotObject, [("X", "y")])) ∧
    ∃ e, createSystemStorage (.obj [("b", .num 0)]) [("X", "y")] =
      (.error e, [("X", "y")]) :=
  malformed_entity_registers_nothing "b" (.num 0) [] [("X", "y")]
    (Or.inl (by decide))

/-- C5: when two entities declare the same action name `a`, the entity
merged last (`n2`) becomes its owner in the ownership map and its handler
replaces the earlier one in `globalEffects` (last registration wins, no
collision detection); dispatching `a` afterwards changes only `n2`'s
slice. -/
theorem last_registration_wins (n1 n2 a : String) (ef1 ef2 : List (String × JSValue))
    (s1 s2 : JSValue) (em : EffectsMap) (env : HandlerEnv)
    (state : List (String × JSValue)) (p : JSValue) (i2 : Nat)
    (hs1u : s1 ≠ .undefined)
    (hs2u : s2 ≠ .undefined)
    (hs1k : getVariableType s1 ∉ (["function", "date", "regexp", "symbol"] : List String))
    (hs2k : getVariableType s2 ∉ (["function", "date", "regexp", "symbol"] : List String))
    (ha1 : a ∈ ef1.map Prod.fst)
    (ha2 : getField ef2 a = .fn i2)
    (hnd2 : (ef2.map Prod.fst).Nodup)
    (ht : a ≠ "")
    (hpt : truthy p = true)
    (hpk : getVariableType p ∉ (["function", "date", "regexp", "symbol"] : List String)) :
    ∃ ss em',
      createSystemStorage
        (.obj [(n1, .obj [("effects", .obj ef1), ("initialState", s1)]),
               (n2, .obj [("effects", .obj ef2), ("initialState", s2)])]) em =
        (.ok ss, em') ∧
      getField ss.globalEffects a = .fn i2 ∧
      mapGet em' a = some n2 ∧
      reducerFn env (storageToJS ss) em' state
          (.obj [("type", .str a), ("payload", p)]) =
        .ok (setField state n2 (env i2 (getField state n2) p)) ∧
      ∀ k, k ≠ n2 → getField (setField state n2 (env i2 (getField state n2) p)) k =
        getField state k := by
  simp only [List.mem_cons, List.not_mem_nil, or_false, not_or] at hs1k hs2k
  obtain ⟨hs1a, hs1b, hs1c, hs1d⟩ := hs1k
  obtain ⟨hs2a, hs2b, hs2c, hs2d⟩ := hs2k
  have hiu1 : isUndefined s1 = false := isUndefined_eq_false_of_ne s1 hs1u
  have hiu2 : isUndefined s2 = false := isUndefined_eq_false_of_ne s2 hs2u
  have h0 : createSystemStorage
      (.obj [(n1, .obj [("effects", .obj ef1), ("initialState", s1)]),
             (n2, .obj [("effects", .obj ef2), ("initialState", s2)])]) em =
      buildLoopCSS [(n1, .obj [("effects", .obj ef1), ("initialState", s1)]),
             (n2, .obj [("effects", .obj ef2), ("initialState", s2)])] [] [] em := by
    simp [createSystemStorage, getVariableType, objFields]
  have hb1 := buildLoopCSS_step n1 ef1 s1
    [(n2, .obj [("effects", .obj ef2), ("initialState", s2)])] [] [] em
    hiu1 hs1a hs1b hs1c hs1d
  have hb2 := buildLoopCSS_step n2 ef2 s2 [] (spreadMerge [] ef1) (setField [] n1 s1)
    (ef1.foldl (fun mm kv => mapSet mm kv.1 n1) em)
    hiu2 hs2a hs2b hs2c hs2d
  have hbuild := (h0.trans hb1).trans hb2
  set em2 : EffectsMap := ef2.foldl (fun mm kv => mapSet mm kv.1 n2)
    (ef1.foldl (fun mm kv => mapSet mm kv.1 n1) em) with hem2
  set ge2 : List (String × JSValue) := spreadMerge (spreadMerge [] ef1) ef2 with hge2
  set gis2 : List (String × JSValue) := setField (setField [] n1 s1) n2 s2 with hgis2
  refine ⟨⟨ge2, gis2⟩, em2, hbuild, ?_, ?_, ?_, ?_⟩
  · exact getField_spreadMerge_mem ef2 hnd2 (spreadMerge [] ef1) a (.fn i2) ha2
      (mem_keys_of_getField_fn ef2 a i2 ha2)
  · exact mapGet_foldl_mapSet ef2 n2 (ef1.foldl (fun mm kv => mapSet mm kv.1 n1) em) a
      (Or.inl (mem_keys_of_getField_fn ef2 a i2 ha2))
  · have hfn : getProp (getProp (storageToJS ⟨ge2, gis2⟩) "globalEffects") a = .fn i2 := by
      have hrw : getProp (storageToJS ⟨ge2, gis2⟩) "globalEffects" = .obj ge2 := rfl
      rw [hrw]
      show getField ge2 a = JSValue.fn i2
      exact getField_spreadMerge_mem ef2 hnd2 (spreadMerge [] ef1) a (.fn i2) ha2
        (mem_keys_of_getField_fn ef2 a i2 ha2)
    have hown : mapGet em2 a = some n2 :=
      mapGet_foldl_mapSet ef2 n2 (ef1.foldl (fun mm kv => mapSet mm kv.1 n1) em) a
        (Or.inl (mem_keys_of_getField_fn ef2 a i2 ha2))
    exact reducerFn_resolved env (storageToJS ⟨ge2, gis2⟩) em2 state
      [("type", .str a), ("payload", p)] a n2 i2 p rfl ht rfl hpt hpk hfn hown
  · intro k hk
    exact getField_setField_ne state n2 k _ hk

/-- Witness for C5 on the scenario of §8: two entities both declare
`SYNC`; after the build, `SYNC` is owned by the entity merged last and
dispatching it mutates only that entity's slice. -/
theorem last_registration_wins_witness :
    ∃ ss em',
      createSystemStorage
        (.obj [("e1", .obj [("effects", .obj [("SYNC", .fn 0)]), ("initialState", .num 0)]),
               ("e2", .obj [("effects", .obj [("SYNC", .fn 1)]), ("initialState", .num 0)])])
        [] = (.ok ss, em') ∧
      getField ss.globalEffects "SYNC" = .fn 1 ∧
      mapGet em' "SYNC" = some "e2" ∧
      reducerFn addEnv (storageToJS ss) em' [("e1", .num 5), ("e2", .num 7)]
          (.obj [("type", .str "SYNC"), ("payload", .num 1)]) =
        .ok (setField [("e1", .num 5), ("e2", .num 7)] "e2"
          (addEnv 1 (getField [("e1", .num 5), ("e2", .num 7)] "e2") (.num 1))) ∧
      ∀ k, k ≠ "e2" →
        getField (setField [("e1", .num 5), ("e2", .num 7)] "e2"
          (addEnv 1 (getField [("e1", .num 5), ("e2", .num 7)] "e2") (.num 1))) k =
        getField [("e1", .num 5), ("e2", .num 7)] k :=
  last_registration_wins "e1" "e2" "SYNC" [("SYNC", .fn 0)] [("SYNC", .fn 1)]
    (.num 0) (.num 0) [] addEnv [("e1", .num 5), ("e2", .num 7)] (.num 1) 1
    (by simp) (by simp) (by decide) (by decide) (by decide) rfl (by decide)
    (by decide) rfl (by decide)

/-- The entity loop on a list of valid entities always succeeds, and the
keys of the accumulated `globalInitialState` are exactly the keys it
started with plus the entity names processed. -/
theorem buildLoopCSS_valid_keys (fields : List (String × JSValue)) :
    ∀ (ge gis : List (String × JSValue)) (em : EffectsMap),
      (∀ kv ∈ fields, validEntity kv.2 = true) →
      ∃ ss em', buildLoopCSS fields ge gis em = (.ok ss, em') ∧
        ∀ k, k ∈ ss.globalInitialState.map Prod.fst ↔
          k ∈ gis.map Prod.fst ∨ k ∈ fields.map Prod.fst := by
  induction fields with
  | nil =>
      intro ge gis em _
      exact ⟨⟨ge, gis⟩, em, rfl, by simp⟩
  | cons kv rest ih =>
      intro ge gis em hval
      obtain ⟨key, ent⟩ := kv
      have hv := hval (key, ent) (List.mem_cons_self _ _)
      simp only [validEntity, Bool.and_eq_true] at hv
      have hv1 := hv.1.1.1.1
      have hv2 := hv.1.1.1.2
      have hv3 := hv.1.1.2
      have hv4 := hv.1.2
      have hv5 := hv.2
      have h1 : getVariableType ent = "object" := by simpa using hv1
      have h3 : isUndefined (getProp ent "initialState") = false := by simpa using hv3
      have h4 : getVariableType (getProp ent "effects") = "object" := by simpa using hv4
      have h5 : (getVariableType (getProp ent "initialState") == "function" ||
          getVariableType (getProp ent "initialState") == "date" ||
          getVariableType (getProp ent "initialState") == "regexp" ||
          getVariableType (getProp ent "initialState") == "symbol") = false := by
        simpa using hv5
      have hstep : buildLoopCSS ((key, ent) :: rest) ge gis em =
          buildLoopCSS rest (spreadMerge ge (objFields (getProp ent "effects")))
            (setField gis key (getProp ent "initialState"))
            ((objFields (getProp ent "effects")).foldl (fun m kv => mapSet m kv.1 key) em) := by
        simp [buildLoopCSS, h1, hv2, h3, h4, h5]
      obtain ⟨ss, em', hrec, hkeys⟩ := ih (spreadMerge ge (objFields (getProp ent "effects")))
        (setField gis key (getProp ent "initialState"))
        ((objFields (getProp ent "effects")).foldl (fun m kv => mapSet m kv.1 key) em)
        (fun kv hm => hval kv (List.mem_cons_of_mem _ hm))
      refine ⟨ss, em', hstep.trans hrec, ?_⟩
      intro k
      rw [hkeys k, mem_keys_setField]
      simp only [List.map_cons, List.mem_cons]
      tauto

/-- C8: for every valid entity map, the key set of the resulting
`globalInitialState` is exactly the set of entity names in the input, and
this key set is unchanged under any permutation of the entity
declarations (order-independence of key membership). -/
theorem build_keys_order_independent (fields : List (String × JSValue))
    (em em2 : EffectsMap)
    (hval : ∀ kv ∈ fields, validEntity kv.2 = true) :
    ∃ ss em', createSystemStorage (.obj fields) em = (.ok ss, em') ∧
      (∀ k, k ∈ ss.globalInitialState.map Prod.fst ↔ k ∈ fields.map Prod.fst) ∧
      ∀ fields', fields'.Perm fields →
        ∃ ss' em'', createSystemStorage (.obj fields') em2 = (.ok ss', em'') ∧
          ∀ k, k ∈ ss'.globalInitialState.map Prod.fst ↔
            k ∈ ss.globalInitialState.map Prod.fst := by
  obtain ⟨ss, em', hrun, hkeys⟩ := buildLoopCSS_valid_keys fields [] [] em hval
  have h0 : createSystemStorage (.obj fields) em = buildLoopCSS fields [] [] em := by
    simp [createSystemStorage, getVariableType, objFields]
  have hmem : ∀ k, k ∈ ss.globalInitialState.map Prod.fst ↔ k ∈ fields.map Prod.fst := by
    intro k
    rw [hkeys k]
    simp
  refine ⟨ss, em', h0.trans hrun, hmem, ?_⟩
  intro fields' hperm
  have hval' : ∀ kv ∈ fields', validEntity kv.2 = true := fun kv hm =>
    hval kv (hperm.subset hm)
  obtain ⟨ss', em'', hrun', hkeys'⟩ := buildLoopCSS_valid_keys fields' [] [] em2 hval'
  have h0' : createSystemStorage (.obj fields') em2 = buildLoopCSS fields' [] [] em2 := by
    simp [createSystemStorage, getVariableType, objFields]
  refine ⟨ss', em'', h0'.trans hrun', ?_⟩
  intro k
  rw [hkeys' k, hmem k]
  simpa using (hperm.map Prod.fst).mem_iff

/-- Witness for C8: a concrete two-entity map builds successfully and its
`globalInitialState` keys are the entity names, for any permutation. -/
theorem build_keys_order_independent_witness :
    ∃ ss em', createSystemStorage
        (.obj [("a", demoEntity),
               ("b", .obj [("effects", .obj []), ("initialState", .str "")])]) [] =
        (.ok ss, em') ∧
      (∀ k, k ∈ ss.globalInitialState.map Prod.fst ↔
        k ∈ ([("a", demoEntity),
              ("b", JSValue.obj [("effects", .obj []), ("initialState", .str "")])].map
          Prod.fst)) ∧
      ∀ fields', fields'.Perm
          [("a", demoEntity),
           ("b", JSValue.obj [("effects", .obj []), ("initialState", .str "")])] →
        ∃ ss' em'', createSystemStorage (.obj fields') [] = (.ok ss', em'') ∧
          ∀ k, k ∈ ss'.globalInitialState.map Prod.fst ↔
            k ∈ ss.globalInitialState.map Prod.fst :=
  build_keys_order_independent
    [("a", demoEntity), ("b", .obj [("effects", .obj []), ("initialState", .str "")])]
    [] [] (by decide)

/-- C9: the reducer is a module-level singleton cached on first store
construction.  With an empty cache, `createStore` caches a reducer closing
over its own `systemStorage`; a second `createStore` with a different
registry `ss2` reuses that cached reducer, so the second store captures
`ss1` — not `ss2` — and its dispatch resolves handlers from `ss1`'s
`globalEffects` rather than its own. -/
theorem reducer_cached_from_first_store (ss1 ss2 opts : JSValue)
    (h1 : getVariableType ss1 = "object") (h2 : getVariableType ss2 = "object")
    (hopt : getVariableType opts = "object")
    (hge1 : truthy (getProp ss1 "globalEffects") = true)
    (hgi1 : truthy (getProp ss1 "globalInitialState") = true)
    (hge2 : truthy (getProp ss2 "globalEffects") = true)
    (hgi2 : truthy (getProp ss2 "globalInitialState") = true) :
    createStore none ss1 opts =
      (.ok ⟨getProp ss1 "globalInitialState", ss1⟩, some ss1) ∧
    createStore (some ss1) ss2 opts =
      (.ok ⟨getProp ss2 "globalInitialState", ss1⟩, some ss1) ∧
    ∀ (env : HandlerEnv) (em : EffectsMap) (state : List (String × JSValue))
      (action : JSValue),
      storeDispatch env ⟨getProp ss2 "globalInitialState", ss1⟩ em state action =
        reducerFn env ss1 em state action := by
  refine ⟨?_, ?_, fun env em state action => rfl⟩
  · simp [createStore, h1, hopt, hge1, hgi1]
  · simp [createStore, h2, hopt, hge2, hgi2]

/-- Witness for C9: after a first store built from `demoStorage`, a second
store built from a different registry still captures `demoStorage`. -/
theorem reducer_cached_from_first_store_witness :
    createStore none demoStorage (.obj []) =
      (.ok ⟨getProp demoStorage "globalInitialState", demoStorage⟩, some demoStorage) ∧
    createStore (some demoStorage)
        (.obj [("globalEffects", .obj [("OTHER", .fn 1)]),
               ("globalInitialState", .obj [("thing", .null)])]) (.obj []) =
      (.ok ⟨getProp (.obj [("globalEffects", .obj [("OTHER", .fn 1)]),
               ("globalInitialState", .obj [("thing", .null)])]) "globalInitialState",
            demoStorage⟩, some demoStorage) ∧
    ∀ (env : HandlerEnv) (em : EffectsMap) (state : List (String × JSValue))
      (action : JSValue),
      storeDispatch env ⟨getProp (.obj [("globalEffects", .obj [("OTHER", .fn 1)]),
               ("globalInitialState", .obj [("thing", .null)])]) "globalInitialState",
          demoStorage⟩ em state action =
        reducerFn env demoStorage em state action :=
  reducer_cached_from_first_store demoStorage
    (.obj [("globalEffects", .obj [("OTHER", .fn 1)]),
           ("globalInitialState", .obj [("thing", .null)])]) (.obj [])
    rfl rfl rfl rfl rfl rfl rfl

end Simpply
